import Mathlib

set_option autoImplicit false

/-!
Verification of the AI Teacher Robot application (`src/main.py`).

The development shallowly embeds the parts of the program the specification
talks about:

* `Servo`: the pulse-width / duty-cycle computation of
  `ServoController.set_servo_angle`, over exact rationals.
* `Quiz`: the quiz data model (`on_quiz_ready`, `show_question`,
  `check_answer`, `next_question`, `show_results`), with Python dict/list
  accesses made explicit as `Option`-returning lookups.
* `Workers`: the error-classification logic of `AIWorker.run`,
  `QuizWorker.run` and `VoiceWorker.run`, together with the signal/slot
  wiring the GUI installs for each worker.
* `Requests`: the prompt construction of `on_start_clicked` and
  `on_start_quiz_clicked`.
* `Sel`: the random phrase / sound selection points
  (`play_random_opening_sound`, `play_random_closing_sound`,
  `check_answer`), parameterized by a pure pseudo-random generator.
* `Coord`: the session coordinator for lesson audio playback and
  doubt-listening (`handle_gesture`, `play_random_opening_sound`,
  `start_doubt_session`, `start_listening_worker`, `handle_parsed_doubt`,
  `play_audio_and_resume`, `play_random_closing_sound`,
  `close_doubt_session`), as a step function over an explicit state with
  worker threads and polling timers modelled by events.
-/

namespace Servo

/-- Servo calibration constant `SERVO_MIN_US = 500` from `ServoController`. -/
def SERVO_MIN_US : ℚ := 500

/-- Servo calibration constant `SERVO_MAX_US = 2500` from `ServoController`. -/
def SERVO_MAX_US : ℚ := 2500

/-- Servo calibration constant `PWM_PERIOD_US = 20000` from `ServoController`. -/
def PWM_PERIOD_US : ℚ := 20000

/-- The clamp `angle = max(0, min(180, angle))` in `set_servo_angle`. -/
def clampAngle (angle : ℚ) : ℚ := max 0 (min 180 angle)

/-- The pulse width `pulse_us = SERVO_MIN_US + (angle / 180) * (SERVO_MAX_US - SERVO_MIN_US)`
computed by `set_servo_angle` after clamping. -/
def pulse_us (angle : ℚ) : ℚ :=
  SERVO_MIN_US + (clampAngle angle / 180) * (SERVO_MAX_US - SERVO_MIN_US)

/-- Python `int(x)` truncates toward zero. -/
def pyInt (q : ℚ) : ℤ := if 0 ≤ q then ⌊q⌋ else -⌊-q⌋

/-- The duty cycle `int((pulse_us / PWM_PERIOD_US) * 65535)` computed by
`set_servo_angle`. -/
def duty_cycle (angle : ℚ) : ℤ := pyInt (pulse_us angle / PWM_PERIOD_US * 65535)

end Servo

namespace Quiz

/-- One element of the quiz-data JSON array as produced by `QuizWorker.run`
(`json.loads` output, forwarded unvalidated).  A Python dict may lack the
`'question'` or `'answer'` keys (or hold a non-string / non-integer there),
which the embedding records as `none`; `'options'` is the list of option
strings (possibly fewer than 4). -/
structure RawQuizItem where
  question : Option String
  options : List String
  answer : Option Int
deriving DecidableEq, Repr

/-- Python list indexing `l[i]`: non-negative indices from the front,
negative indices wrap from the back, anything out of range raises
(`none` here). -/
def pyIndex {α : Type} (l : List α) (i : Int) : Option α :=
  if 0 ≤ i then l[i.toNat]?
  else if 0 ≤ i + l.length then l[(i + l.length).toNat]?
  else none

/-- The GUI builds exactly 4 option buttons (`self.option_buttons`). -/
@[reducible] def numOptionButtons : Nat := 4

/-- Reads `options[i]` for each button index in order, as the loop
`for i, btn in enumerate(self.option_buttons): btn.setText(options[i])`
does; the first out-of-range access raises. -/
def readOptions (options : List String) : List Nat → Option (List String)
  | [] => some []
  | i :: rest =>
    match pyIndex options (i : Int) with
    | none => none
    | some o =>
      match readOptions options rest with
      | none => none
      | some os => some (o :: os)

/-- The accesses `show_question` performs on the current quiz item:
`q_data['question']` and `options[i]` for each of the 4 option buttons.
Returns the rendered question text and the 4 option texts, or `none` when
an access raises. -/
def show_question (item : RawQuizItem) : Option (String × List String) :=
  match item.question with
  | none => none
  | some q =>
    match readOptions item.options (List.range numOptionButtons) with
    | none => none
    | some opts => some (q, opts)

/-- The state-relevant part of `check_answer(user_idx)`: it reads
`quiz_data[current_question_index]['answer']`, styles
`option_buttons[correct_idx]` (an access that raises when the recorded
answer is outside the valid Python index range for the 4-element button
list), and increments the score by exactly 1 when `user_idx == correct_idx`
and leaves it unchanged otherwise.  `user_idx` comes from a clicked button,
hence is one of 0..3. -/
def check_answer (item : RawQuizItem) (user_idx : Fin numOptionButtons)
    (score : Nat) : Option Nat :=
  match item.answer with
  | none => none
  | some correct =>
    match pyIndex (List.replicate numOptionButtons ()) correct with
    | none => none
    | some _ => some (if (user_idx.val : Int) = correct then score + 1 else score)

/-- Shape precondition on a quiz item: a `'question'` string, at least 4
options, and an integer `'answer'` in `[0, 3]`. -/
def validItem (item : RawQuizItem) : Bool :=
  item.question.isSome && decide (4 ≤ item.options.length) &&
    (match item.answer with
     | some a => decide (0 ≤ a) && decide (a ≤ 3)
     | none => false)

/-- Events of one quiz run, in dispatch order: question `i` is displayed
(`show_question`), its feedback animation and audio are dispatched
(`check_answer`), and the index is advanced by exactly one
(`next_question`, via the `quiz_wait_timer` poll or the 500 ms one-shot). -/
inductive QuizEv
  | showQ (i : Nat)
  | feedback (i : Nat)
  | advance (i : Nat)
deriving DecidableEq, Repr

/-- One quiz run over the remaining (question, user choice) pairs starting
at question index `i` with the current score, as driven by
`show_question` / `check_answer` / `next_question`.  When the index reaches
the end, `show_results` runs (recursion ends).  Produces the final score and
the event trace, or `none` when some dict/list access raises. -/
def runQuizFrom : List (RawQuizItem × Fin numOptionButtons) → Nat → Nat →
    Option (Nat × List QuizEv)
  | [], _, score => some (score, [])
  | (item, c) :: rest, i, score =>
    match show_question item with
    | none => none
    | some _ =>
      match check_answer item c score with
      | none => none
      | some score2 =>
        match runQuizFrom rest (i + 1) score2 with
        | none => none
        | some (fs, tr) =>
          some (fs, QuizEv.showQ i :: QuizEv.feedback i :: QuizEv.advance i :: tr)

/-- A full quiz session: `on_quiz_ready` stores the data and resets
`current_question_index` and `score` to 0, then the questions are played in
order against the user's choices. -/
def runQuiz (data : List RawQuizItem) (choices : List (Fin numOptionButtons)) :
    Option (Nat × List QuizEv) :=
  runQuizFrom (data.zip choices) 0 0

/-- Count of questions whose user-selected option index equals the recorded
`'answer'` index. -/
def correctCount (l : List (RawQuizItem × Fin numOptionButtons)) : Nat :=
  l.countP (fun p => p.1.answer == some (p.2.val : Int))

/-- The score line rendered by `show_results`: `f"Score: {score}/{total}"`. -/
def show_results_text (score total : Nat) : String :=
  "Score: " ++ toString score ++ "/" ++ toString total

/-- The canonical strictly sequential trace of `n` questions starting at
index `i`. -/
def canonicalFrom : Nat → Nat → List QuizEv
  | 0, _ => []
  | n + 1, i =>
    QuizEv.showQ i :: QuizEv.feedback i :: QuizEv.advance i :: canonicalFrom n (i + 1)

/-- Checks that a trace is strictly sequential from index `n`: each question
is displayed, then its feedback is dispatched, then the index advances by
exactly one, with no index skipped or revisited. -/
def seqCheck : List QuizEv → Nat → Bool
  | [], _ => true
  | QuizEv.showQ i :: QuizEv.feedback j :: QuizEv.advance k :: rest, n =>
    (i == n) && (j == n) && (k == n) && seqCheck rest (n + 1)
  | _, _ => false

/-- Indices displayed by `show_question` along a trace, in order. -/
def shownIndices (tr : List QuizEv) : List Nat :=
  tr.filterMap (fun e => match e with | QuizEv.showQ i => some i | _ => none)

/-- Indices at which `next_question` advanced, in order. -/
def advanceIndices (tr : List QuizEv) : List Nat :=
  tr.filterMap (fun e => match e with | QuizEv.advance i => some i | _ => none)

/-- The quiz-relevant GUI state touched by `on_quiz_ready`. -/
structure QuizGuiState where
  quiz_data : List RawQuizItem
  current_question_index : Nat
  score : Nat
deriving DecidableEq, Repr

/-- The slot `on_quiz_ready(data)`: stores the received JSON data verbatim
(no shape validation) and resets index and score. -/
def on_quiz_ready (st : QuizGuiState) (data : List RawQuizItem) : QuizGuiState :=
  { st with quiz_data := data, current_question_index := 0, score := 0 }

end Quiz

namespace Workers

/-- A pattern occurs as a contiguous run inside a character list. -/
def listHasInfix : List Char → List Char → Bool
  | pat, [] => pat.isEmpty
  | pat, c :: rest => pat.isPrefixOf (c :: rest) || listHasInfix pat rest

/-- Python substring test `pat in s`. -/
def containsSub (s pat : String) : Bool := listHasInfix pat.data s.data

/-- Python `str.lower()`. -/
def pyLower (s : String) : String := ⟨s.data.map Char.toLower⟩

/-- Error classification in the `except` block of `AIWorker.run`. -/
def aiErrorMessage (err : String) : String :=
  if containsSub err "RESOURCE_EXHAUSTED" || containsSub err "429" then
    "Error: Gemini API Quota Exceeded. Try again later."
  else if containsSub err "API key" || containsSub err "401" then
    "Error: Invalid Gemini API Key."
  else
    "Error: Failed to generate content."

/-- Error classification in the `except` block of `QuizWorker.run` (note:
no bad-credentials branch; anything non-quota reports the generic failure). -/
def quizErrorMessage (err : String) : String :=
  if containsSub err "RESOURCE_EXHAUSTED" || containsSub err "429" then
    "Error: Gemini Quota Exceeded."
  else
    "Error: Failed to generate quiz."

/-- Error classification in the `except` block of `VoiceWorker.run`. -/
def voiceErrorMessage (err : String) : String :=
  if containsSub err "401" || containsSub err "API key" then
    "Error: Invalid ElevenLabs API Key."
  else if containsSub (pyLower err) "quota" then
    "Error: ElevenLabs Quota Exceeded."
  else
    "Error: Audio generation failed."

/-- Payloads `AIWorker.run` emits on `text_received`: the response text when
the API call succeeds with non-empty text, otherwise the classified error
string built from the raised exception. -/
def AIWorker_run (result : Except String String) : List String :=
  match result with
  | Except.ok t => if t.isEmpty then [] else [t]
  | Except.error e => [aiErrorMessage e]

/-- Signals a `QuizWorker` can emit: parsed quiz data on `data_received`,
or a classified error string on `error_occurred`. -/
inductive QuizSignal
  | dataReceived (d : List Quiz.RawQuizItem)
  | errorOccurred (msg : String)
deriving DecidableEq, Repr

/-- The outcome of `QuizWorker.run`: on success the markdown-stripped
response is parsed as JSON and emitted on `data_received`; any exception
(API failure or JSON parse failure) emits the classified error string on
`error_occurred`. -/
def QuizWorker_run (result : Except String (List Quiz.RawQuizItem)) : QuizSignal :=
  match result with
  | Except.ok d => QuizSignal.dataReceived d
  | Except.error e => QuizSignal.errorOccurred (quizErrorMessage e)

/-- Signals a `VoiceWorker` can emit. -/
inductive VoiceSignal
  | finished
  | errorOccurred (msg : String)
deriving DecidableEq, Repr

/-- The outcome of `VoiceWorker.run`. -/
def VoiceWorker_run (result : Except String Unit) : VoiceSignal :=
  match result with
  | Except.ok _ => VoiceSignal.finished
  | Except.error e => VoiceSignal.errorOccurred (voiceErrorMessage e)

/-- The coordinator-side state a worker result can touch: the mode state
named by the spec plus the widgets the connected slots write to. -/
structure UiState where
  is_learning_mode : Bool
  is_quiz_mode : Bool
  quiz_data : List Quiz.RawQuizItem
  current_question_index : Nat
  quiz_loading_label : String
  start_quiz_btn_enabled : Bool
  result_area : List String
  voice_btn_text : String
deriving DecidableEq, Repr

/-- The slot `update_text_area`, connected to `AIWorker.text_received`:
renders the chunk (error strings included, styled red) inline in the result
area; it touches no mode state. -/
def update_text_area (ui : UiState) (text : String) : UiState :=
  { ui with result_area := ui.result_area ++ [text] }

/-- The UI effects of `on_start_quiz_clicked` before the worker starts. -/
def on_start_quiz_clicked_ui (ui : UiState) : UiState :=
  { ui with
    quiz_loading_label := "Generating Questions... Please wait."
    start_quiz_btn_enabled := false }

/-- Delivery of a `QuizWorker` signal, with exactly the connections
`on_start_quiz_clicked` installs: `data_received` is connected to
`on_quiz_ready`; `error_occurred` is connected to nothing, so an error
emission reaches no slot and the state is unchanged. -/
def dispatchQuizSignal (ui : UiState) (sig : QuizSignal) : UiState :=
  match sig with
  | QuizSignal.dataReceived d =>
    { ui with quiz_data := d, current_question_index := 0, quiz_loading_label := "" }
  | QuizSignal.errorOccurred _ => ui

/-- The slot `on_audio_error`, connected to `VoiceWorker.error_occurred`:
shows the error on the voice button; it touches no mode state. -/
def on_audio_error (ui : UiState) (_err : String) : UiState :=
  { ui with voice_btn_text := "Error" }

/-- A UI state as on entry to the quiz setup view. -/
def initUi : UiState :=
  { is_learning_mode := true, is_quiz_mode := true, quiz_data := [],
    current_question_index := 0, quiz_loading_label := "",
    start_quiz_btn_enabled := true, result_area := [], voice_btn_text := "Listen" }

end Workers

namespace Requests

/-- The learning prompt builder `GET_LEARNING_PROMPT`: a pure function of
topic, language, name, grade and word limit. -/
def GET_LEARNING_PROMPT (topic language name grade word_limit : String) : String :=
  "Analyze request: Topic=\x27" ++ topic ++ "\x27, Language=\x27" ++ language ++
  "\x27, Name=\x27" ++ name ++ "\x27. " ++
  "TASK: Explain this topic to a " ++ grade ++ " student strictly in " ++ language ++ ". " ++
  "RULES: " ++
  "1. OUTPUT MUST BE IN " ++ language ++ " ONLY. Text must be max " ++ word_limit ++
  "2. Start by greeting " ++ name ++ " happily in " ++ language ++ ". " ++
  "3. Style: Super cool, fun, Gen Z vibe. " ++
  "4. Math & Science: Show exact formulas & numbers. " ++
  "5. STRICTLY DO NOT use markdown (bold/italic)."

/-- The quiz prompt builder `GET_QUIZ_PROMPT`: a pure function of topic,
grade, language and question count. -/
def GET_QUIZ_PROMPT (topic grade language : String) (num_questions : Nat) : String :=
  "Generate a quiz about \x27" ++ topic ++ "\x27 for a " ++ grade ++ " student in " ++
  language ++ ". " ++
  "Create exactly " ++ toString num_questions ++ " multiple-choice questions. " ++
  "Output ONLY a raw JSON array. " ++
  "STRICT FORMAT RULES: " ++
  "1. No markdown (no ```json or ```). " ++
  "2. No introductory text or explanations. " ++
  "3. Valid JSON Array format: [\x7b...\x7d, \x7b...\x7d] " ++
  "Structure: [\x7b\"question\": \"Question text\", \"options\": [\"Option A\", \"Option B\", \"Option C\", \"Option D\"], \"answer\": 0\x7d, ...] " ++
  "where \x27answer\x27 is the integer index (0, 1, 2, or 3) of the correct option."

/-- The form inputs read by `on_start_clicked` (values already stripped). -/
structure FormInputs where
  name : String
  grade : String
  subject : String
  language : String
  topic : String
  word_limit : String
deriving DecidableEq, Repr

/-- The request-relevant GUI state: the stored topic/subject and the list of
prompts handed to workers so far, in order. -/
structure ReqState where
  current_topic : String
  current_subject : String
  issued : List String
deriving DecidableEq, Repr

/-- The request-relevant part of `on_start_clicked`: if any field is empty
an error label is shown and nothing is issued; otherwise the learning
prompt is built from the current inputs and handed to a fresh `AIWorker`.
No record of previously issued prompts is consulted. -/
def on_start_clicked (st : ReqState) (inp : FormInputs) : ReqState :=
  if inp.name.isEmpty || inp.grade.isEmpty || inp.subject.isEmpty ||
      inp.language.isEmpty || inp.topic.isEmpty then st
  else
    { st with
      current_topic := inp.topic
      current_subject := inp.subject
      issued := st.issued ++
        [GET_LEARNING_PROMPT inp.topic inp.language inp.name inp.grade inp.word_limit] }

/-- The request-relevant part of `on_start_quiz_clicked`: the quiz prompt is
built from the stored topic and the current grade/language/count inputs and
handed to a fresh `QuizWorker`, unconditionally. -/
def on_start_quiz_clicked (st : ReqState) (grade language : String)
    (num_questions : Nat) : ReqState :=
  { st with issued := st.issued ++
      [GET_QUIZ_PROMPT st.current_topic grade language num_questions] }

end Requests

namespace Sel

/-- The fixed opening phrase list of `play_random_opening_sound`. -/
def opening_phrases : List String :=
  ["I\x27m listening. What is your doubt?",
   "Go ahead, I\x27m all ears.",
   "Ask me anything about this topic."]

/-- The fixed closing phrase list of `play_random_closing_sound`. -/
def closing_phrases : List String :=
  ["Alright, let me know if you have any doubts. See ya!",
   "Great! Happy learning. Bye!",
   "Okay, closing this section. Have fun!"]

/-- The win feedback sound candidates from `check_answer`: directory entries
(name, size) filtered to `win_exp_*.mp3` files larger than 100 bytes, joined
with the `sounds` directory. -/
def winFiles (dir : List (String × Nat)) : List String :=
  (dir.filter (fun fs =>
    fs.1.startsWith "win_exp_" && fs.1.endsWith ".mp3" && decide (100 < fs.2))).map
    (fun fs => "sounds/" ++ fs.1)

/-- The lose feedback sound candidates from `check_answer`. -/
def loseFiles (dir : List (String × Nat)) : List String :=
  (dir.filter (fun fs =>
    fs.1.startsWith "lose_exp_" && fs.1.endsWith ".mp3" && decide (100 < fs.2))).map
    (fun fs => "sounds/" ++ fs.1)

/-- Python `random.choice(seq)` over an abstract pure generator: `rb g n`
draws a value below `n` from state `g` and returns the successor state (the
Mersenne-Twister `_randbelow`; the modulus keeps an arbitrary `rb` in
range).  Raises (`none`) on an empty sequence. -/
def pyChoice {α : Type} (rb : Nat → Nat → Nat × Nat) (g : Nat) (l : List α) :
    Option (α × Nat) :=
  match l with
  | [] => none
  | _ =>
    let p := rb g l.length
    match l[p.1 % l.length]? with
    | some a => some (a, p.2)
    | none => none

/-- The random selection points of the session, in occurrence order. -/
inductive SelEv
  | openingSel
  | closingSel
  | answerSel (correct : Bool)
deriving DecidableEq, Repr

/-- One selection: `play_random_opening_sound` / `play_random_closing_sound`
draw a phrase and derive the audio file name from its first index in the
fixed list; `check_answer` draws a win/lose file when the filtered candidate
list is non-empty (`if files_list:`). -/
def selStep (rb : Nat → Nat → Nat × Nat) (dir : List (String × Nat))
    (st : Nat × List String) (e : SelEv) : Nat × List String :=
  match e with
  | SelEv.openingSel =>
    match pyChoice rb st.1 opening_phrases with
    | some (msg, g2) =>
      (g2, st.2 ++ [msg, "sounds/opening_" ++ toString (opening_phrases.indexOf msg) ++ ".mp3"])
    | none => st
  | SelEv.closingSel =>
    match pyChoice rb st.1 closing_phrases with
    | some (msg, g2) =>
      (g2, st.2 ++ [msg, "sounds/closing_" ++ toString (closing_phrases.indexOf msg) ++ ".mp3"])
    | none => st
  | SelEv.answerSel correct =>
    let files := if correct then winFiles dir else loseFiles dir
    if files.isEmpty then st
    else
      match pyChoice rb st.1 files with
      | some (f, g2) => (g2, st.2 ++ [f])
      | none => st

/-- The phrases and sound files selected over a run: a function of the
generator, its seed state, the sounds directory listing and the sequence of
selection points. -/
def selectionLog (rb : Nat → Nat → Nat × Nat) (seed : Nat)
    (dir : List (String × Nat)) (evs : List SelEv) : List String :=
  (evs.foldl (selStep rb dir) (seed, [])).2

end Sel

namespace Coord

/-- State of the single `pygame.mixer.music` stream. -/
inductive AudioSt
  | stopped
  | playing
  | paused
deriving DecidableEq, Repr

/-- Lifecycle of one `ListenWorker` thread: running (capturing on the
microphone), stop-requested (`stop()` set `is_running = False` but `run()`
has not returned, so the thread is still alive and the microphone still
held), or terminated (`run()` returned, microphone released). -/
inductive WorkerSt
  | running
  | stopRequested
  | terminated
deriving DecidableEq, Repr

/-- `QThread.isRunning()`: true until `run()` returns. -/
def WorkerSt.isLiveThread : WorkerSt → Bool
  | WorkerSt.terminated => false
  | _ => true

/-- The coordinator state for lesson audio and doubt listening.  `workers`
lists every `ListenWorker` ever created, in creation order; `listen_worker`
is the index of the currently referenced one.  The three `Timer` flags model
the active polling `QTimer`s (`opening_timer`, `resume_timer`,
`close_timer`).  `responsePending` records a dispatched doubt
answer pipeline (`AIWorker` then `VoiceWorker`) whose audio has not started
yet, and `pendingSession` the value of the ghost session counter
`sessionId` when it was dispatched.  `pauseCount` / `unpauseCount` are ghost
counters of the `pygame.mixer.music.pause()` calls that actually paused a
playing stream and of the `unpause()` calls. -/
structure CoordState where
  audio : AudioSt
  is_audio_paused : Bool
  is_learning_mode : Bool
  is_listening_active : Bool
  workers : List WorkerSt
  listen_worker : Option Nat
  openingTimer : Bool
  resumeTimer : Bool
  closeTimer : Bool
  responsePending : Bool
  pendingSession : Nat
  sessionId : Nat
  pauseCount : Nat
  unpauseCount : Nat
deriving DecidableEq, Repr

/-- `pygame.mixer.music.get_busy()`: true while actively playing (false when
paused, from pygame 2.0.1 on). -/
def mixerBusy (s : CoordState) : Bool := s.audio == AudioSt.playing

/-- The pause prologue shared by `handle_gesture`,
`play_random_opening_sound` and `on_voice_clicked`:
`if pygame.mixer.music.get_busy(): pause(); is_audio_paused = True`. -/
def pauseIfBusy (s : CoordState) : CoordState :=
  if s.audio = AudioSt.playing then
    { s with
      audio := AudioSt.paused
      is_audio_paused := true
      pauseCount := s.pauseCount + 1 }
  else s

/-- `play_audio_file`: load the file into the mixer and start playback
(replacing whatever stream was loaded before). -/
def play_audio_file (s : CoordState) : CoordState :=
  { s with audio := AudioSt.playing }

/-- `stop_audio`: `if get_busy() or is_audio_paused: stop()`, then clear the
paused flag. -/
def stop_audio (s : CoordState) : CoordState :=
  { s with
    audio := if mixerBusy s || s.is_audio_paused then AudioSt.stopped else s.audio
    is_audio_paused := false }

/-- `ListenWorker.stop()`: sets `is_running = False`; the thread keeps
running until its loop observes the flag. -/
def stopWorker : WorkerSt → WorkerSt
  | WorkerSt.running => WorkerSt.stopRequested
  | w => w

/-- The worker list after `self.listen_worker.stop()` on the referenced
worker. -/
def stopTrackedWorkers (s : CoordState) : List WorkerSt :=
  match s.listen_worker with
  | some i =>
    match s.workers[i]? with
    | some w => s.workers.set i (stopWorker w)
    | none => s.workers
  | none => s.workers

/-- `self.listen_worker.stop()` applied to the referenced worker, when one is
referenced. -/
def stopTracked (s : CoordState) : CoordState :=
  { s with workers := stopTrackedWorkers s }

/-- The guard of `start_listening_worker`:
`self.listen_worker and self.listen_worker.isRunning()`. -/
def trackedLive (s : CoordState) : Bool :=
  match s.listen_worker with
  | some i =>
    match s.workers[i]? with
    | some w => w.isLiveThread
    | none => false
  | none => false

/-- The tracked worker exists and is still actively listening (its stop flag
has not been set). -/
def trackedRunning (s : CoordState) : Bool :=
  match s.listen_worker with
  | some i => s.workers[i]? == some WorkerSt.running
  | none => false

/-- `start_listening_worker`: returns unchanged when the referenced worker
thread is still running; otherwise creates and starts a fresh
`ListenWorker` and references it. -/
def start_listening_worker (s : CoordState) : CoordState :=
  if trackedLive s then s
  else
    { s with
      workers := s.workers ++ [WorkerSt.running]
      listen_worker := some s.workers.length }

/-- `start_doubt_session`: marks doubt listening active and starts the
listen thread. -/
def start_doubt_session (s : CoordState) : CoordState :=
  start_listening_worker { s with is_listening_active := true }

/-- `play_random_opening_sound` with the opening file already on disk: pause
any playing lesson audio, then `play_audio_and_listen` plays the opening
audio and starts the periodic opening poll timer.  The ghost `sessionId`
numbers the doubt session being opened. -/
def play_random_opening_sound (s : CoordState) : CoordState :=
  let s1 := play_audio_file (pauseIfBusy s)
  { s1 with openingTimer := true, sessionId := s1.sessionId + 1 }

/-- The worker list after `close_doubt_session` has asked the referenced
worker to stop (`stop()`) and then waited up to 2 seconds for its thread:
`waitOk` records whether `wait(2000)` saw the thread exit (making it
terminated) or timed out (leaving it as it was, thread still alive). -/
def closeWorkers (waitOk : Bool) (s : CoordState) : List WorkerSt :=
  match s.listen_worker with
  | some i =>
    if waitOk then (stopTrackedWorkers s).set i WorkerSt.terminated
    else stopTrackedWorkers s
  | none => stopTrackedWorkers s

/-- `close_doubt_session`: stop the audio (`stop_audio`), cancel the pending
poll timers, ask the referenced worker to stop and wait up to 2 seconds for
the thread (`waitOk` as in `closeWorkers`), drop the reference
(`self.listen_worker = None`), and leave the doubt-listening state. -/
def close_doubt_session (waitOk : Bool) (s : CoordState) : CoordState :=
  { s with
    audio := if mixerBusy s || s.is_audio_paused then AudioSt.stopped else s.audio
    is_audio_paused := false
    resumeTimer := false
    closeTimer := false
    openingTimer := false
    workers := closeWorkers waitOk s
    listen_worker := none
    is_listening_active := false }

/-- `play_random_closing_sound` with the closing file already on disk: stop
the referenced listener first, then `play_audio_and_close` plays the closing
audio and starts the closing poll timer. -/
def play_random_closing_sound (s : CoordState) : CoordState :=
  let s1 := play_audio_file (stopTracked s)
  { s1 with closeTimer := true }

/-- `play_audio_and_resume`: play the synthesized doubt answer and start the
resume poll timer. -/
def play_audio_and_resume (s : CoordState) : CoordState :=
  let s1 := play_audio_file s
  { s1 with resumeTimer := true }

/-- Events driving the coordinator.  They cover the doubt-session flow and
the voice button of the lesson view (which stays clickable at all times,
a doubt session included); each background completion (mixer reaching the
end of a file, a poll timer tick, a worker thread exiting, the doubt answer
pipeline finishing) is an explicit event because it happens asynchronously
in the program. -/
inductive CoordEv
  | voiceClicked
  | gestureOpenDoubt
  | doubtButtonOpen
  | audioEnds
  | openingTimerFires
  | speechRecognized
  | responseReady
  | responseReadyStale
  | resumeTimerFires
  | gestureCloseDoubt
  | closingTimerFires (waitOk : Bool)
  | workerExits (i : Nat)
deriving DecidableEq, Repr

/-- One step of the coordinator: `none` when the event is not enabled in the
given state.

* `voiceClicked`: `on_voice_clicked` with audio not generating, text
  present and the audio file cached: pause when playing, unpause when
  paused, else play the lesson audio — with no check of the doubt-session
  state, so a click can start playback while a listen worker is capturing.
* `gestureOpenDoubt`: `handle_gesture("OPEN_DOUBT")` — pause-if-busy, then
  `play_random_opening_sound` (which pauses again if busy; a no-op on the
  already paused stream).
* `doubtButtonOpen`: `on_doubt_clicked` with no session open.
* `audioEnds`: the mixer reaches the end of the loaded file.
* `openingTimerFires`: `check_opening_finished_and_listen` tick — when the
  mixer is no longer busy, stop the timer and `start_doubt_session`.
* `speechRecognized`: `handle_parsed_doubt` on a recognized doubt — any
  live worker can deliver one, including one whose stop flag was set while
  it was mid-listen; the handler stops the currently referenced worker and
  dispatches the `AIWorker`/`VoiceWorker` answer pipeline.
* `responseReady`: the pipeline finished while its session is still the
  open one — `play_audio_and_resume`.
* `responseReadyStale`: the same callback firing after its session was
  closed (nothing cancels the pipeline), possibly during a later session.
* `resumeTimerFires`: `check_audio_finished_and_listen` tick — when the
  mixer is no longer busy, stop the timer and restart listening if the
  session is still active.
* `gestureCloseDoubt`: `handle_gesture("CLOSE_DOUBT")` / a "no doubt"
  phrase / the doubt button toggle — `play_random_closing_sound`.
* `closingTimerFires waitOk`: `check_audio_finished_and_close` tick — when
  the mixer is no longer busy, `close_doubt_session`; `waitOk` tells whether
  the 2-second bounded `wait` saw the listen thread exit.
* `workerExits i`: a stop-requested listen thread's `run()` returns. -/
def coordStep (s : CoordState) : CoordEv → Option CoordState
  | CoordEv.voiceClicked =>
    if s.audio = AudioSt.playing then
      some { s with
        audio := AudioSt.paused
        is_audio_paused := true
        pauseCount := s.pauseCount + 1 }
    else if s.is_audio_paused = true then
      some { s with
        audio := if s.audio = AudioSt.paused then AudioSt.playing else s.audio
        is_audio_paused := false
        unpauseCount := s.unpauseCount + 1 }
    else some (play_audio_file s)
  | CoordEv.gestureOpenDoubt =>
    if s.is_learning_mode = true ∧ s.is_listening_active = false then
      some (play_random_opening_sound (pauseIfBusy s))
    else none
  | CoordEv.doubtButtonOpen =>
    if s.is_listening_active = false then some (play_random_opening_sound s)
    else none
  | CoordEv.audioEnds =>
    if s.audio = AudioSt.playing then some { s with audio := AudioSt.stopped }
    else none
  | CoordEv.openingTimerFires =>
    if s.openingTimer = true then
      if mixerBusy s then some s
      else some (start_doubt_session { s with openingTimer := false })
    else none
  | CoordEv.speechRecognized =>
    if trackedLive s = true then
      some { (stopTracked s) with responsePending := true, pendingSession := s.sessionId }
    else none
  | CoordEv.responseReady =>
    if s.responsePending = true ∧ s.is_listening_active = true ∧
        s.pendingSession = s.sessionId then
      some (play_audio_and_resume { s with responsePending := false })
    else none
  | CoordEv.responseReadyStale =>
    if s.responsePending = true ∧
        ¬(s.is_listening_active = true ∧ s.pendingSession = s.sessionId) then
      some (play_audio_and_resume { s with responsePending := false })
    else none
  | CoordEv.resumeTimerFires =>
    if s.resumeTimer = true then
      if mixerBusy s then some s
      else
        if s.is_listening_active = true then
          some (start_listening_worker { s with resumeTimer := false })
        else some { s with resumeTimer := false }
    else none
  | CoordEv.gestureCloseDoubt =>
    if s.is_listening_active = true then some (play_random_closing_sound s)
    else none
  | CoordEv.closingTimerFires waitOk =>
    if s.closeTimer = true then
      if mixerBusy s then some s
      else some (close_doubt_session waitOk { s with closeTimer := false })
    else none
  | CoordEv.workerExits i =>
    match s.workers[i]? with
    | some WorkerSt.stopRequested =>
      some { s with workers := s.workers.set i WorkerSt.terminated }
    | _ => none

/-- The application's initial coordinator state (lesson view shown, no
audio, no doubt session, no listen worker ever started). -/
def initState : CoordState :=
  { audio := AudioSt.stopped, is_audio_paused := false, is_learning_mode := true
    is_listening_active := false, workers := [], listen_worker := none
    openingTimer := false, resumeTimer := false, closeTimer := false
    responsePending := false, pendingSession := 0, sessionId := 0
    pauseCount := 0, unpauseCount := 0 }

/-- Execution of a sequence of events from the initial state. -/
def runCoord (evs : List CoordEv) : Option CoordState :=
  evs.foldlM coordStep initState

/-- Two distinct `ListenWorker` threads are alive at once. -/
def twoLiveWorkers (s : CoordState) : Prop :=
  ∃ j k : Nat, j < k ∧
    (∃ w : WorkerSt, s.workers[j]? = some w ∧ w.isLiveThread = true) ∧
    (∃ w : WorkerSt, s.workers[k]? = some w ∧ w.isLiveThread = true)

/-- Event trace in which the bounded wait of `close_doubt_session` times out
and a second listen worker is started while the first thread is still alive. -/
def timeoutTrace : List CoordEv :=
  [CoordEv.doubtButtonOpen, CoordEv.audioEnds, CoordEv.openingTimerFires,
   CoordEv.gestureCloseDoubt, CoordEv.audioEnds, CoordEv.closingTimerFires false,
   CoordEv.doubtButtonOpen, CoordEv.audioEnds, CoordEv.openingTimerFires]

/-- Event trace of one full doubt session entered while the lesson audio is
playing: the entry pauses the audio once; the exit stops it and never
unpauses. -/
def pauseResumeTrace : List CoordEv :=
  [CoordEv.voiceClicked, CoordEv.gestureOpenDoubt, CoordEv.audioEnds,
   CoordEv.openingTimerFires, CoordEv.gestureCloseDoubt, CoordEv.audioEnds,
   CoordEv.closingTimerFires true]

/-- Inductive invariant for worker uniqueness: every worker other than the
referenced one has terminated, and the reference is in range.  It holds along
traces in which every `close_doubt_session` wait saw the thread exit. -/
structure Inv3 (s : CoordState) : Prop where
  untracked : ∀ j, j < s.workers.length → s.listen_worker ≠ some j →
    s.workers[j]? = some WorkerSt.terminated
  bound : ∀ i, s.listen_worker = some i → i < s.workers.length


end Coord

example : Quiz.show_question ⟨some "q", ["a", "b", "c", "d"], some 2⟩ =
    some ("q", ["a", "b", "c", "d"]) := by decide

example : Quiz.show_question ⟨some "q", ["a", "b", "c"], some 0⟩ = none := by decide

example : Quiz.check_answer ⟨some "q", ["a", "b", "c", "d"], some 5⟩ 0 0 = none := by
  decide

example : Quiz.runQuiz [⟨some "q", ["a", "b", "c", "d"], some 2⟩,
    ⟨some "r", ["a", "b", "c", "d"], some 0⟩] [2, 1] =
    some (1, [Quiz.QuizEv.showQ 0, Quiz.QuizEv.feedback 0, Quiz.QuizEv.advance 0,
      Quiz.QuizEv.showQ 1, Quiz.QuizEv.feedback 1, Quiz.QuizEv.advance 1]) := by decide

example : Servo.duty_cycle 0 = 1638 := by
  norm_num [Servo.duty_cycle, Servo.pulse_us, Servo.clampAngle, Servo.pyInt,
    Servo.SERVO_MIN_US, Servo.SERVO_MAX_US, Servo.PWM_PERIOD_US]

example : Servo.duty_cycle 180 = 8191 := by
  norm_num [Servo.duty_cycle, Servo.pulse_us, Servo.clampAngle, Servo.pyInt,
    Servo.SERVO_MIN_US, Servo.SERVO_MAX_US, Servo.PWM_PERIOD_US]

example : Servo.duty_cycle 300 = 8191 := by
  norm_num [Servo.duty_cycle, Servo.pulse_us, Servo.clampAngle, Servo.pyInt,
    Servo.SERVO_MIN_US, Servo.SERVO_MAX_US, Servo.PWM_PERIOD_US]

example : Servo.duty_cycle (-7) = 1638 := by
  norm_num [Servo.duty_cycle, Servo.pulse_us, Servo.clampAngle, Servo.pyInt,
    Servo.SERVO_MIN_US, Servo.SERVO_MAX_US, Servo.PWM_PERIOD_US]

example : Servo.duty_cycle 90 = 4915 := by
  norm_num [Servo.duty_cycle, Servo.pulse_us, Servo.clampAngle, Servo.pyInt,
    Servo.SERVO_MIN_US, Servo.SERVO_MAX_US, Servo.PWM_PERIOD_US]

namespace Coord

lemma stopTrackedWorkers_length (s : CoordState) :
    (stopTrackedWorkers s).length = s.workers.length := by
  unfold stopTrackedWorkers
  cases s.listen_worker with
  | none => rfl
  | some i =>
    cases h : s.workers[i]? with
    | none => simp [h]
    | some w => simp [h]

lemma stopTrackedWorkers_getElem_untracked {s : CoordState} {j : Nat}
    (hne : s.listen_worker ≠ some j) :
    (stopTrackedWorkers s)[j]? = s.workers[j]? := by
  unfold stopTrackedWorkers
  cases hlw : s.listen_worker with
  | none => rfl
  | some i =>
    simp only
    cases hw : s.workers[i]? with
    | none => rfl
    | some w =>
      have hij : i ≠ j := by
        intro he
        exact hne (by rw [hlw, he])
      exact List.getElem?_set_ne hij

lemma trackedLive_congr {s t : CoordState} (hl : t.listen_worker = s.listen_worker)
    (hw : t.workers = s.workers) : trackedLive t = trackedLive s := by
  unfold trackedLive
  rw [hl, hw]

lemma trackedRunning_start {s : CoordState} (h : trackedLive s = false) :
    trackedRunning (start_listening_worker s) = true := by
  unfold start_listening_worker
  rw [h]
  simp only [Bool.false_eq_true, if_false]
  unfold trackedRunning
  simp [List.getElem?_concat_length]

lemma play_random_opening_sound_fields (s : CoordState) :
    (play_random_opening_sound s).audio = AudioSt.playing ∧
    (play_random_opening_sound s).workers = s.workers ∧
    (play_random_opening_sound s).listen_worker = s.listen_worker ∧
    (play_random_opening_sound s).is_listening_active = s.is_listening_active ∧
    (play_random_opening_sound s).is_learning_mode = s.is_learning_mode ∧
    (play_random_opening_sound s).openingTimer = true ∧
    (play_random_opening_sound s).resumeTimer = s.resumeTimer ∧
    (play_random_opening_sound s).closeTimer = s.closeTimer ∧
    (play_random_opening_sound s).responsePending = s.responsePending ∧
    (play_random_opening_sound s).pendingSession = s.pendingSession ∧
    (play_random_opening_sound s).sessionId = s.sessionId + 1 := by
  unfold play_random_opening_sound play_audio_file pauseIfBusy
  split_ifs <;> simp

lemma close_doubt_session_fields (wo : Bool) (s : CoordState) :
    (close_doubt_session wo s).listen_worker = none ∧
    (close_doubt_session wo s).is_listening_active = false ∧
    (close_doubt_session wo s).openingTimer = false ∧
    (close_doubt_session wo s).resumeTimer = false ∧
    (close_doubt_session wo s).closeTimer = false ∧
    (close_doubt_session wo s).responsePending = s.responsePending ∧
    (close_doubt_session wo s).pendingSession = s.pendingSession ∧
    (close_doubt_session wo s).sessionId = s.sessionId ∧
    (close_doubt_session wo s).is_audio_paused = false ∧
    (close_doubt_session wo s).audio =
      (if mixerBusy s || s.is_audio_paused then AudioSt.stopped else s.audio) := by
  unfold close_doubt_session
  exact ⟨rfl, rfl, rfl, rfl, rfl, rfl, rfl, rfl, rfl, rfl⟩

lemma start_listening_worker_eq (s : CoordState) :
    (trackedLive s = true ∧ start_listening_worker s = s) ∨
    (trackedLive s = false ∧ start_listening_worker s =
      { s with
        workers := s.workers ++ [WorkerSt.running]
        listen_worker := some s.workers.length }) := by
  unfold start_listening_worker
  cases h : trackedLive s
  · right
    simp [h]
  · left
    simp [h]

lemma play_audio_and_resume_eq (s : CoordState) :
    play_audio_and_resume s = { s with audio := AudioSt.playing, resumeTimer := true } := by
  unfold play_audio_and_resume play_audio_file
  rfl


lemma inv3_init : Inv3 initState := by
  constructor
  · intro j hj _
    simp [initState] at hj
  · intro i h
    simp [initState] at h

lemma trackedLive_false_elim {s : CoordState} {i : Nat} {w : WorkerSt}
    (hl : trackedLive s = false) (hlw : s.listen_worker = some i)
    (hw : s.workers[i]? = some w) : w = WorkerSt.terminated := by
  unfold trackedLive at hl
  simp only [hlw, hw] at hl
  cases w
  · simp [WorkerSt.isLiveThread] at hl
  · simp [WorkerSt.isLiveThread] at hl
  · rfl

lemma inv3_stopTracked {s : CoordState} (h : Inv3 s) : Inv3 (stopTracked s) := by
  constructor
  · intro j hj hne2
    have hne3 : s.listen_worker ≠ some j := hne2
    have hj2 : j < s.workers.length := by
      have hx : j < (stopTrackedWorkers s).length := hj
      rw [stopTrackedWorkers_length] at hx
      exact hx
    show (stopTrackedWorkers s)[j]? = some WorkerSt.terminated
    rw [stopTrackedWorkers_getElem_untracked hne3]
    exact h.untracked j hj2 hne3
  · intro i hi
    have hi2 : s.listen_worker = some i := hi
    show i < (stopTrackedWorkers s).length
    rw [stopTrackedWorkers_length]
    exact h.bound i hi2

lemma inv3_start {s : CoordState} (h : Inv3 s) : Inv3 (start_listening_worker s) := by
  rcases start_listening_worker_eq s with ⟨hl, heq⟩ | ⟨hl, heq⟩
  · rw [heq]
    exact h
  · rw [heq]
    constructor
    · intro j hj hne2
      simp only [List.length_append, List.length_cons, List.length_nil] at hj
      have hjne : j ≠ s.workers.length := by
        intro he
        apply hne2
        show some s.workers.length = some j
        rw [he]
      have hj2 : j < s.workers.length := by omega
      show (s.workers ++ [WorkerSt.running])[j]? = some WorkerSt.terminated
      rw [List.getElem?_append, if_pos hj2]
      cases hlw : s.listen_worker with
      | none =>
        exact h.untracked j hj2 (by rw [hlw]; exact fun he => Option.noConfusion he)
      | some i =>
        by_cases hji : j = i
        · subst hji
          cases hw : s.workers[j]? with
          | none =>
            have hcon := h.bound j hlw
            rw [List.getElem?_eq_getElem hcon] at hw
            exact Option.noConfusion hw
          | some w =>
            rw [trackedLive_false_elim hl hlw hw]
        · exact h.untracked j hj2 (by
            rw [hlw]
            intro he
            exact hji (Option.some.inj he).symm)
    · intro i hi
      have : i = s.workers.length := (Option.some.inj hi).symm
      simp [this]

lemma inv3_close {s : CoordState} (h : Inv3 s) : Inv3 (close_doubt_session true s) := by
  constructor
  · intro j hj hne2
    show (closeWorkers true s)[j]? = some WorkerSt.terminated
    have hj2 : j < (closeWorkers true s).length := hj
    unfold closeWorkers at hj2 ⊢
    cases hlw : s.listen_worker with
    | none =>
      simp only [hlw] at hj2 ⊢
      have hlen : j < s.workers.length := by
        rw [stopTrackedWorkers_length] at hj2
        exact hj2
      rw [stopTrackedWorkers_getElem_untracked
        (by rw [hlw]; exact fun he => Option.noConfusion he)]
      exact h.untracked j hlen (by rw [hlw]; exact fun he => Option.noConfusion he)
    | some i =>
      simp only [hlw, if_true, List.length_set] at hj2 ⊢
      have hlen : j < s.workers.length := by
        rw [stopTrackedWorkers_length] at hj2
        exact hj2
      by_cases hji : j = i
      · subst hji
        rw [List.getElem?_set_self (by rw [stopTrackedWorkers_length]; exact hlen)]
      · rw [List.getElem?_set_ne (fun he => hji he.symm)]
        rw [stopTrackedWorkers_getElem_untracked
          (by rw [hlw]; intro he; exact hji (Option.some.inj he).symm)]
        exact h.untracked j hlen
          (by rw [hlw]; intro he; exact hji (Option.some.inj he).symm)
  · intro i2 hi2
    exact Option.noConfusion hi2

lemma inv3_step {s s' : CoordState} {e : CoordEv} (hne : e ≠ CoordEv.closingTimerFires false)
    (h : Inv3 s) (hs : coordStep s e = some s') : Inv3 s' := by
  cases e with
  | voiceClicked =>
    simp only [coordStep] at hs
    split_ifs at hs <;>
    first
    | exact Option.noConfusion hs
    | (simp only [Option.some.injEq] at hs
       subst hs
       exact ⟨h.untracked, h.bound⟩)
  | gestureOpenDoubt =>
    simp only [coordStep] at hs
    split_ifs at hs with h1
    simp only [Option.some.injEq] at hs
    subst hs
    obtain ⟨ha, hw, hlw, hact, hlm, hot, hrt, hct, hrp, hps, hsid⟩ :=
      play_random_opening_sound_fields (pauseIfBusy s)
    have hwp : (pauseIfBusy s).workers = s.workers := by
      unfold pauseIfBusy
      split_ifs <;> rfl
    have hlp : (pauseIfBusy s).listen_worker = s.listen_worker := by
      unfold pauseIfBusy
      split_ifs <;> rfl
    constructor
    · intro j hj hne2
      rw [hw.trans hwp] at hj ⊢
      rw [hlw.trans hlp] at hne2
      exact h.untracked j hj hne2
    · intro i hi
      rw [hlw.trans hlp] at hi
      rw [hw.trans hwp]
      exact h.bound i hi
  | doubtButtonOpen =>
    simp only [coordStep] at hs
    split_ifs at hs with h1
    simp only [Option.some.injEq] at hs
    subst hs
    obtain ⟨ha, hw, hlw, hact, hlm, hot, hrt, hct, hrp, hps, hsid⟩ :=
      play_random_opening_sound_fields s
    constructor
    · intro j hj hne2
      rw [hw] at hj ⊢
      rw [hlw] at hne2
      exact h.untracked j hj hne2
    · intro i hi
      rw [hlw] at hi
      rw [hw]
      exact h.bound i hi
  | audioEnds =>
    simp only [coordStep] at hs
    split_ifs at hs
    simp only [Option.some.injEq] at hs
    subst hs
    exact ⟨h.untracked, h.bound⟩
  | openingTimerFires =>
    simp only [coordStep] at hs
    split_ifs at hs
    · simp only [Option.some.injEq] at hs
      subst hs
      exact ⟨h.untracked, h.bound⟩
    · simp only [Option.some.injEq] at hs
      subst hs
      unfold start_doubt_session
      exact inv3_start ⟨h.untracked, h.bound⟩
  | speechRecognized =>
    simp only [coordStep] at hs
    split_ifs at hs
    simp only [Option.some.injEq] at hs
    subst hs
    exact ⟨(inv3_stopTracked h).untracked, (inv3_stopTracked h).bound⟩
  | responseReady =>
    simp only [coordStep] at hs
    split_ifs at hs
    simp only [Option.some.injEq] at hs
    subst hs
    exact ⟨h.untracked, h.bound⟩
  | responseReadyStale =>
    simp only [coordStep] at hs
    split_ifs at hs
    simp only [Option.some.injEq] at hs
    subst hs
    exact ⟨h.untracked, h.bound⟩
  | resumeTimerFires =>
    simp only [coordStep] at hs
    split_ifs at hs <;>
    first
    | exact Option.noConfusion hs
    | (simp only [Option.some.injEq] at hs
       subst hs
       first
       | exact inv3_start ⟨h.untracked, h.bound⟩
       | exact ⟨h.untracked, h.bound⟩)
  | gestureCloseDoubt =>
    simp only [coordStep] at hs
    split_ifs at hs
    simp only [Option.some.injEq] at hs
    subst hs
    exact ⟨(inv3_stopTracked h).untracked, (inv3_stopTracked h).bound⟩
  | closingTimerFires wo =>
    cases wo with
    | false => exact absurd rfl hne
    | true =>
      simp only [coordStep] at hs
      split_ifs at hs
      · simp only [Option.some.injEq] at hs
        subst hs
        exact ⟨h.untracked, h.bound⟩
      · simp only [Option.some.injEq] at hs
        subst hs
        exact inv3_close ⟨h.untracked, h.bound⟩
  | workerExits i =>
    simp only [coordStep] at hs
    cases hw : s.workers[i]? with
    | none =>
      simp only [hw] at hs
      exact Option.noConfusion hs
    | some w =>
      cases w with
      | running =>
        simp only [hw] at hs
        exact Option.noConfusion hs
      | terminated =>
        simp only [hw] at hs
        exact Option.noConfusion hs
      | stopRequested =>
        simp only [hw, Option.some.injEq] at hs
        subst hs
        have hilen : i < s.workers.length := by
          by_contra hge
          rw [List.getElem?_eq_none (by omega)] at hw
          exact Option.noConfusion hw
        constructor
        · intro j hj hne2
          simp only [List.length_set] at hj
          by_cases hji : j = i
          · subst hji
            show (s.workers.set j WorkerSt.terminated)[j]? = some WorkerSt.terminated
            rw [List.getElem?_set_self (by simpa using hj)]
          · show (s.workers.set i WorkerSt.terminated)[j]? = some WorkerSt.terminated
            rw [List.getElem?_set_ne (fun he => hji he.symm)]
            exact h.untracked j hj hne2
        · intro i2 hi2
          have := h.bound i2 hi2
          simpa using this

lemma inv3_run : ∀ (evs : List CoordEv) (s0 s : CoordState), Inv3 s0 →
    CoordEv.closingTimerFires false ∉ evs →
    List.foldlM coordStep s0 evs = some s → Inv3 s := by
  intro evs
  induction evs with
  | nil =>
    intro s0 s h _ hr
    simp only [List.foldlM_nil, pure, Option.some.injEq] at hr
    subst hr
    exact h
  | cons e rest ih =>
    intro s0 s h hmem hr
    rw [List.foldlM_cons] at hr
    cases h1 : coordStep s0 e with
    | none =>
      rw [h1] at hr
      simp at hr
    | some s1 =>
      rw [h1] at hr
      simp only [Option.bind_eq_bind, Option.some_bind] at hr
      have hne : e ≠ CoordEv.closingTimerFires false := by
        intro he
        exact hmem (he ▸ List.mem_cons_self e rest)
      exact ih s1 s (inv3_step hne h h1) (fun hm => hmem (List.mem_cons_of_mem _ hm)) hr

lemma inv3_no_two {s : CoordState} (h : Inv3 s) : ¬ twoLiveWorkers s := by
  rintro ⟨j, k, hjk, ⟨w1, hw1, hl1⟩, ⟨w2, hw2, hl2⟩⟩
  have hjlen : j < s.workers.length := by
    by_contra hge
    rw [List.getElem?_eq_none (by omega)] at hw1
    exact Option.noConfusion hw1
  have hklen : k < s.workers.length := by
    by_contra hge
    rw [List.getElem?_eq_none (by omega)] at hw2
    exact Option.noConfusion hw2
  cases hlw : s.listen_worker with
  | none =>
    have ht := h.untracked j hjlen (by rw [hlw]; exact fun he => Option.noConfusion he)
    rw [hw1] at ht
    rw [Option.some.inj ht] at hl1
    simp [WorkerSt.isLiveThread] at hl1
  | some i =>
    by_cases hji : j = i
    · have hki : k ≠ i := by omega
      have ht := h.untracked k hklen (by
        rw [hlw]
        intro he
        exact hki (Option.some.inj he).symm)
      rw [hw2] at ht
      rw [Option.some.inj ht] at hl2
      simp [WorkerSt.isLiveThread] at hl2
    · have ht := h.untracked j hjlen (by
        rw [hlw]
        intro he
        exact hji (Option.some.inj he).symm)
      rw [hw1] at ht
      rw [Option.some.inj ht] at hl1
      simp [WorkerSt.isLiveThread] at hl1

end Coord

namespace Quiz

lemma pyIndex_nonneg (l : List String) (i : Nat) (h : i < l.length) :
    pyIndex l (i : Int) = some l[i] := by
  unfold pyIndex
  rw [if_pos (Int.natCast_nonneg i)]
  simp [List.getElem?_eq_getElem h]

lemma validItem_parts {item : RawQuizItem} (h : validItem item = true) :
    (∃ q, item.question = some q) ∧ 4 ≤ item.options.length ∧
    ∃ a, item.answer = some a ∧ 0 ≤ a ∧ a ≤ 3 := by
  unfold validItem at h
  simp only [Bool.and_eq_true, decide_eq_true_eq] at h
  obtain ⟨⟨hq, hlen⟩, hans⟩ := h
  refine ⟨Option.isSome_iff_exists.mp hq, hlen, ?_⟩
  cases ha : item.answer with
  | none =>
    rw [ha] at hans
    exact Bool.noConfusion hans
  | some a =>
    rw [ha] at hans
    simp only [Bool.and_eq_true, decide_eq_true_eq] at hans
    exact ⟨a, rfl, hans.1, hans.2⟩

lemma show_question_isSome {item : RawQuizItem} (h : validItem item = true) :
    (show_question item).isSome = true := by
  obtain ⟨⟨q, hq⟩, hlen, -⟩ := validItem_parts h
  unfold show_question
  rw [hq]
  have hr : List.range numOptionButtons = [0, 1, 2, 3] := by rfl
  have h0 := pyIndex_nonneg item.options 0 (by omega)
  have h1 := pyIndex_nonneg item.options 1 (by omega)
  have h2 := pyIndex_nonneg item.options 2 (by omega)
  have h3 := pyIndex_nonneg item.options 3 (by omega)
  simp only [hr, readOptions, h0, h1, h2, h3, Option.isSome_some]

lemma check_answer_eq {item : RawQuizItem} {a : Int} (ha : item.answer = some a)
    (h0 : 0 ≤ a) (h3 : a ≤ 3) (c : Fin numOptionButtons) (sc : Nat) :
    check_answer item c sc = some (if (c.val : Int) = a then sc + 1 else sc) := by
  unfold check_answer
  rw [ha]
  have hp : pyIndex (List.replicate numOptionButtons ()) a = some () := by
    unfold pyIndex
    rw [if_pos h0]
    rw [List.getElem?_eq_getElem (by
      simp only [List.length_replicate]
      show a.toNat < 4
      omega)]
  show (match pyIndex (List.replicate numOptionButtons ()) a with
    | none => none
    | some _ => some (if (c.val : Int) = a then sc + 1 else sc)) =
    some (if (c.val : Int) = a then sc + 1 else sc)
  rw [hp]

lemma runQuizFrom_eq : ∀ (l : List (RawQuizItem × Fin numOptionButtons)),
    (∀ p ∈ l, validItem p.1 = true) → ∀ (i sc : Nat),
    runQuizFrom l i sc = some (sc + correctCount l, canonicalFrom l.length i) := by
  intro l
  induction l with
  | nil =>
    intro _ i sc
    simp [runQuizFrom, correctCount, canonicalFrom]
  | cons p rest ih =>
    intro hv i sc
    obtain ⟨item, c⟩ := p
    have hvi : validItem item = true := hv _ (List.mem_cons_self _ _)
    obtain ⟨x, hx⟩ := Option.isSome_iff_exists.mp (show_question_isSome hvi)
    obtain ⟨-, -, a, ha, h0, h3⟩ := validItem_parts hvi
    have hrec := ih (fun q hq => hv q (List.mem_cons_of_mem _ hq)) (i + 1)
      (if (c.val : Int) = a then sc + 1 else sc)
    unfold runQuizFrom
    rw [hx, check_answer_eq ha h0 h3 c sc]
    show (match runQuizFrom rest (i + 1) (if (c.val : Int) = a then sc + 1 else sc) with
      | none => none
      | some (fs, tr) =>
        some (fs, QuizEv.showQ i :: QuizEv.feedback i :: QuizEv.advance i :: tr)) =
      some (sc + correctCount ((item, c) :: rest),
        canonicalFrom ((item, c) :: rest).length i)
    rw [hrec]
    show some ((if (c.val : Int) = a then sc + 1 else sc) + correctCount rest,
      QuizEv.showQ i :: QuizEv.feedback i :: QuizEv.advance i ::
        canonicalFrom rest.length (i + 1)) =
      some (sc + correctCount ((item, c) :: rest),
        canonicalFrom ((item, c) :: rest).length i)
    rw [Option.some.injEq, Prod.mk.injEq]
    constructor
    · simp only [correctCount, List.countP_cons]
      by_cases hc : (c.val : Int) = a
      · rw [if_pos hc]
        have hb : (item.answer == some (c.val : Int)) = true := by
          rw [ha, hc]
          exact beq_self_eq_true a
        rw [hb, if_pos rfl]
        omega
      · rw [if_neg hc]
        have hb : (item.answer == some (c.val : Int)) = false := by
          rw [ha, beq_eq_false_iff_ne]
          intro he
          exact hc (Option.some.inj he).symm
        rw [hb, if_neg Bool.false_ne_true]
        omega
    · rfl

lemma seqCheck_canonical : ∀ (n i : Nat), seqCheck (canonicalFrom n i) i = true := by
  intro n
  induction n with
  | zero => intro i; rfl
  | succ m ih =>
    intro i
    show seqCheck
      (QuizEv.showQ i :: QuizEv.feedback i :: QuizEv.advance i :: canonicalFrom m (i + 1)) i =
      true
    unfold seqCheck
    simp [ih]

lemma shownIndices_canonical : ∀ (n i : Nat),
    shownIndices (canonicalFrom n i) = List.range' i n := by
  intro n
  induction n with
  | zero => intro i; rfl
  | succ m ih =>
    intro i
    show shownIndices
      (QuizEv.showQ i :: QuizEv.feedback i :: QuizEv.advance i :: canonicalFrom m (i + 1)) =
      List.range' i (m + 1)
    unfold shownIndices
    simp only [List.filterMap_cons]
    rw [List.range'_succ]
    show i :: shownIndices (canonicalFrom m (i + 1)) = i :: List.range' (i + 1) m
    rw [ih]

lemma advanceIndices_canonical : ∀ (n i : Nat),
    advanceIndices (canonicalFrom n i) = List.range' i n := by
  intro n
  induction n with
  | zero => intro i; rfl
  | succ m ih =>
    intro i
    show advanceIndices
      (QuizEv.showQ i :: QuizEv.feedback i :: QuizEv.advance i :: canonicalFrom m (i + 1)) =
      List.range' i (m + 1)
    unfold advanceIndices
    simp only [List.filterMap_cons]
    rw [List.range'_succ]
    show i :: advanceIndices (canonicalFrom m (i + 1)) = i :: List.range' (i + 1) m
    rw [ih]

lemma zip_length_eq {data : List RawQuizItem} {choices : List (Fin numOptionButtons)}
    (hlen : data.length = choices.length) :
    (data.zip choices).length = data.length := by
  rw [List.length_zip, hlen, Nat.min_self]

/-- C1: for every quiz session over quiz data of length 1..20, after all
questions are answered the displayed score equals the number of questions
whose user-selected option index equals the recorded answer index — the
score is reset to 0 by `on_quiz_ready` (the run starts at 0), incremented by
exactly 1 on each correct answer, and never changed otherwise; the displayed
text is `show_results_text score total`. -/
theorem C1_score_counts_correct_answers (data : List RawQuizItem) (choices : List (Fin numOptionButtons))
    (hlen : data.length = choices.length) (h1 : 1 ≤ data.length)
    (h20 : data.length ≤ 20) (hv : ∀ item ∈ data, validItem item = true) :
    runQuiz data choices =
      some (correctCount (data.zip choices), canonicalFrom data.length 0) ∧
    show_results_text (correctCount (data.zip choices)) data.length =
      "Score: " ++ toString (correctCount (data.zip choices)) ++ "/" ++
        toString data.length := by
  constructor
  · unfold runQuiz
    rw [runQuizFrom_eq (data.zip choices)
      (fun p hp => hv p.1 (List.of_mem_zip hp).1) 0 0]
    rw [Nat.zero_add, zip_length_eq hlen]
  · rfl

theorem C1_score_counts_correct_answers_witness :
    runQuiz [⟨some "Q1", ["A", "B", "C", "D"], some 2⟩,
             ⟨some "Q2", ["A", "B", "C", "D"], some 0⟩]
        [⟨2, by decide⟩, ⟨1, by decide⟩] =
      some (correctCount ([⟨some "Q1", ["A", "B", "C", "D"], some 2⟩,
             ⟨some "Q2", ["A", "B", "C", "D"], some 0⟩].zip
             [⟨2, by decide⟩, ⟨1, by decide⟩]), canonicalFrom 2 0) :=
  (C1_score_counts_correct_answers [⟨some "Q1", ["A", "B", "C", "D"], some 2⟩,
          ⟨some "Q2", ["A", "B", "C", "D"], some 0⟩]
    [⟨2, by decide⟩, ⟨1, by decide⟩] (by decide) (by decide) (by decide)
    (by decide)).1

/-- C6: quiz progression is strictly sequential — the run produces the
canonical trace in which question `i` is displayed, its feedback is
dispatched in `check_answer`, and only then `next_question` advances the
index by exactly one (`seqCheck`), with the displayed and advanced indices
each being exactly `0, 1, ..., n-1` in order (no index skipped or
revisited). -/
theorem C6_quiz_progression_sequential (data : List RawQuizItem) (choices : List (Fin numOptionButtons))
    (hlen : data.length = choices.length)
    (hv : ∀ item ∈ data, validItem item = true) :
    ∃ score, runQuiz data choices = some (score, canonicalFrom data.length 0) ∧
      seqCheck (canonicalFrom data.length 0) 0 = true ∧
      shownIndices (canonicalFrom data.length 0) = List.range data.length ∧
      advanceIndices (canonicalFrom data.length 0) = List.range data.length := by
  refine ⟨correctCount (data.zip choices), ?_, seqCheck_canonical _ 0, ?_, ?_⟩
  · unfold runQuiz
    rw [runQuizFrom_eq (data.zip choices)
      (fun p hp => hv p.1 (List.of_mem_zip hp).1) 0 0]
    rw [Nat.zero_add, zip_length_eq hlen]
  · rw [shownIndices_canonical, List.range_eq_range']
  · rw [advanceIndices_canonical, List.range_eq_range']

theorem C6_quiz_progression_sequential_witness :
    ∃ score, runQuiz [⟨some "Q1", ["A", "B", "C", "D"], some 3⟩]
        [⟨0, by decide⟩] = some (score, canonicalFrom 1 0) ∧
      seqCheck (canonicalFrom 1 0) 0 = true ∧
      shownIndices (canonicalFrom 1 0) = List.range 1 ∧
      advanceIndices (canonicalFrom 1 0) = List.range 1 :=
  C6_quiz_progression_sequential [⟨some "Q1", ["A", "B", "C", "D"], some 3⟩] [⟨0, by decide⟩]
    (by decide) (by decide)

/-- C10: `show_question` and `check_answer` are safe under the shape
precondition (a question string, at least 4 options, an integer answer in
`[0, 3]`): every item access succeeds; an item with only 3 options makes a
`show_question` access raise, and an item with answer 5 makes the
`check_answer` button access raise; and `on_quiz_ready` stores the
worker-provided data verbatim, with no validation before use. -/
theorem C10_quiz_item_shape_safety :
    (∀ item : RawQuizItem, validItem item = true →
      (show_question item).isSome = true ∧
      ∀ (c : Fin numOptionButtons) (sc : Nat),
        (check_answer item c sc).isSome = true) ∧
    show_question ⟨some "Q", ["A", "B", "C"], some 0⟩ = none ∧
    check_answer ⟨some "Q", ["A", "B", "C", "D"], some 5⟩ ⟨0, by decide⟩ 0 = none ∧
    (∀ (st : QuizGuiState) (data : List RawQuizItem),
      (on_quiz_ready st data).quiz_data = data ∧
      (on_quiz_ready st data).score = 0 ∧
      (on_quiz_ready st data).current_question_index = 0) := by
  refine ⟨?_, by decide, by decide, fun st data => ⟨rfl, rfl, rfl⟩⟩
  intro item hvi
  refine ⟨show_question_isSome hvi, ?_⟩
  intro c sc
  obtain ⟨-, -, a, ha, h0, h3⟩ := validItem_parts hvi
  rw [check_answer_eq ha h0 h3 c sc]
  rfl

theorem C10_quiz_item_shape_safety_witness :
    (show_question ⟨some "Q", ["A", "B", "C", "D"], some 1⟩).isSome = true ∧
    (check_answer ⟨some "Q", ["A", "B", "C", "D"], some 1⟩ ⟨1, by decide⟩ 0).isSome =
      true ∧
    (on_quiz_ready ⟨[], 5, 7⟩ [⟨some "Q", ["A", "B", "C", "D"], some 1⟩]).quiz_data =
      [⟨some "Q", ["A", "B", "C", "D"], some 1⟩] :=
  ⟨(C10_quiz_item_shape_safety.1 ⟨some "Q", ["A", "B", "C", "D"], some 1⟩ (by decide)).1,
   (C10_quiz_item_shape_safety.1 ⟨some "Q", ["A", "B", "C", "D"], some 1⟩ (by decide)).2 ⟨1, by decide⟩ 0,
   (C10_quiz_item_shape_safety.2.2.2 ⟨[], 5, 7⟩ [⟨some "Q", ["A", "B", "C", "D"], some 1⟩]).1⟩

end Quiz

namespace Coord

/-- C3 (counterexample): the claim that a stopped listen worker has fully
terminated before a new one is started is false — along `timeoutTrace` the
2-second bounded wait in `close_doubt_session` times out, the reference is
dropped, and reopening the doubt session starts a second `ListenWorker`
while the first thread is still alive. -/
theorem C3_two_workers_counterexample : ¬ ∀ (evs : List CoordEv) (s : CoordState),
    runCoord evs = some s → ¬ twoLiveWorkers s := by
  intro h
  cases hrun : runCoord timeoutTrace with
  | none =>
    have hne : runCoord timeoutTrace ≠ none := by decide
    exact hne hrun
  | some s =>
    apply h timeoutTrace s hrun
    have hx : (runCoord timeoutTrace).map (fun t => t.workers) =
        some [WorkerSt.stopRequested, WorkerSt.running] := by decide
    rw [hrun] at hx
    simp only [Option.map_some'] at hx
    have hw : s.workers = [WorkerSt.stopRequested, WorkerSt.running] :=
      Option.some.inj hx
    refine ⟨0, 1, by omega, ⟨WorkerSt.stopRequested, ?_, rfl⟩,
      ⟨WorkerSt.running, ?_, rfl⟩⟩
    · rw [hw]
      rfl
    · rw [hw]
      rfl

/-- C3 (amended): along every coordinator trace in which no
`close_doubt_session` bounded wait times out, no two `ListenWorker` threads
are ever alive concurrently — a stopped worker has fully terminated before
`start_listening_worker` creates a new one. -/
theorem C3_no_concurrent_listen_workers (evs : List CoordEv) (s : CoordState)
    (hok : CoordEv.closingTimerFires false ∉ evs)
    (hrun : runCoord evs = some s) : ¬ twoLiveWorkers s :=
  inv3_no_two (inv3_run evs initState s inv3_init hok hrun)

theorem C3_no_concurrent_listen_workers_witness : ¬ twoLiveWorkers initState :=
  C3_no_concurrent_listen_workers [] initState (by decide) rfl

/-- C4 (counterexample): the claim that leaving doubt-listening resumes the
playback state held prior to the suspension is false — along
`pauseResumeTrace` the lesson audio is paused exactly once on entry, but
`close_doubt_session` stops the audio on exit: the final state has the
audio stopped and zero unpause calls, not resumed playback. -/
theorem C4_resume_counterexample : ¬ ∀ (evs : List CoordEv) (s : CoordState),
    runCoord evs = some s → s.pauseCount = 1 → s.is_listening_active = false →
    s.listen_worker = none →
    (s.audio = AudioSt.playing ∧ s.unpauseCount = 1) := by
  intro h
  cases hrun : runCoord pauseResumeTrace with
  | none =>
    have hne : runCoord pauseResumeTrace ≠ none := by decide
    exact hne hrun
  | some s =>
    have hx : (runCoord pauseResumeTrace).map
        (fun t => (t.audio, t.is_listening_active, t.listen_worker,
          t.pauseCount, t.unpauseCount)) =
        some (AudioSt.stopped, false, none, 1, 0) := by decide
    rw [hrun] at hx
    simp only [Option.map_some'] at hx
    obtain ⟨ha, hact, hlw, hpc, hupc⟩ :
        s.audio = AudioSt.stopped ∧ s.is_listening_active = false ∧
        s.listen_worker = none ∧ s.pauseCount = 1 ∧ s.unpauseCount = 0 := by
      have := Option.some.inj hx
      simp only [Prod.mk.injEq] at this
      exact ⟨this.1, this.2.1, this.2.2.1, this.2.2.2.1, this.2.2.2.2⟩
    obtain ⟨hplay, -⟩ := h pauseResumeTrace s hrun hpc hact hlw
    rw [ha] at hplay
    exact AudioSt.noConfusion hplay

/-- C4 (amended): entering doubt-listening while lesson audio is playing
pauses the playback exactly once (the second pause-if-busy inside
`play_random_opening_sound` is a no-op on the already-paused stream) before
the opening sound replaces it, and leaving doubt-listening via
`close_doubt_session` stops the audio and clears the paused flag without
ever unpausing — the suspended playback is not resumed. -/
theorem C4_pause_once_never_resumed :
    (∀ s : CoordState, s.audio = AudioSt.playing → s.is_learning_mode = true →
      s.is_listening_active = false →
      ∃ s', coordStep s CoordEv.gestureOpenDoubt = some s' ∧
        s'.pauseCount = s.pauseCount + 1 ∧ s'.is_audio_paused = true ∧
        s'.audio = AudioSt.playing ∧ s'.unpauseCount = s.unpauseCount) ∧
    (∀ (s s' : CoordState) (wo : Bool), s.closeTimer = true → mixerBusy s = false →
      coordStep s (CoordEv.closingTimerFires wo) = some s' →
      s'.audio ≠ AudioSt.playing ∧ s'.is_audio_paused = false ∧
      s'.unpauseCount = s.unpauseCount) := by
  constructor
  · intro s ha hlm hact
    have ht : pauseIfBusy s =
        { s with
          audio := AudioSt.paused
          is_audio_paused := true
          pauseCount := s.pauseCount + 1 } := by
      unfold pauseIfBusy
      rw [if_pos ha]
    have ht2 : pauseIfBusy (pauseIfBusy s) = pauseIfBusy s := by
      rw [ht]
      conv_lhs => unfold pauseIfBusy
      rw [if_neg (fun hx => nomatch hx)]
    refine ⟨play_random_opening_sound (pauseIfBusy s), ?_, ?_, ?_, ?_, ?_⟩
    · simp only [coordStep]
      rw [if_pos ⟨hlm, hact⟩]
    · show (pauseIfBusy (pauseIfBusy s)).pauseCount = s.pauseCount + 1
      rw [ht2, ht]
    · show (pauseIfBusy (pauseIfBusy s)).is_audio_paused = true
      rw [ht2, ht]
    · exact (play_random_opening_sound_fields (pauseIfBusy s)).1
    · show (pauseIfBusy (pauseIfBusy s)).unpauseCount = s.unpauseCount
      rw [ht2, ht]
  · intro s s' wo hct hnb hs
    simp only [coordStep] at hs
    rw [if_pos hct, if_neg (by rw [hnb]; exact fun hx => nomatch hx)] at hs
    have hs2 := Option.some.inj hs
    subst hs2
    obtain ⟨hlw, hact, hot, hrt, hcl, hrp, hps, hsi, hpau, hau⟩ :=
      close_doubt_session_fields wo { s with closeTimer := false }
    refine ⟨?_, hpau, rfl⟩
    rw [hau]
    have hna : s.audio ≠ AudioSt.playing := by simpa [mixerBusy] using hnb
    have hb : mixerBusy { s with closeTimer := false } = false := hnb
    rw [hb]
    simp only [Bool.false_or]
    split_ifs
    · exact fun hx => nomatch hx
    · exact fun hx => hna hx

theorem C4_pause_once_never_resumed_witness :
    (∃ s', coordStep { initState with audio := AudioSt.playing }
        CoordEv.gestureOpenDoubt = some s' ∧
      s'.pauseCount = { initState with audio := AudioSt.playing }.pauseCount + 1 ∧
      s'.is_audio_paused = true ∧ s'.audio = AudioSt.playing ∧
      s'.unpauseCount = { initState with audio := AudioSt.playing }.unpauseCount) ∧
    (¬(close_doubt_session true { initState with closeTimer := false }).audio =
        AudioSt.playing) := by
  constructor
  · exact C4_pause_once_never_resumed.1 { initState with audio := AudioSt.playing } rfl rfl rfl
  · have := C4_pause_once_never_resumed.2 { initState with closeTimer := true }
      (close_doubt_session true { initState with closeTimer := false }) true rfl
      (by decide) (by decide)
    exact this.1

end Coord

namespace Servo

/-- C9: for every rational input angle and valid channel, `set_servo_angle`
first clamps the angle into `[0, 180]`, the computed pulse width lies in
`[500, 2500]` microseconds, the computed duty cycle lies between the value
for angle 0 (1638) and the value for angle 180 (8191) inclusive, and the
mapping from angle to duty cycle is monotonically non-decreasing. -/
theorem C9_duty_cycle_bounds_monotone (a b : ℚ) (hab : a ≤ b) :
    (0 ≤ clampAngle a ∧ clampAngle a ≤ 180) ∧
    (500 ≤ pulse_us a ∧ pulse_us a ≤ 2500) ∧
    (1638 ≤ duty_cycle a ∧ duty_cycle a ≤ 8191) ∧
    duty_cycle 0 = 1638 ∧ duty_cycle 180 = 8191 ∧
    duty_cycle a ≤ duty_cycle b := by
  have hc0 : ∀ x : ℚ, 0 ≤ clampAngle x := fun x => le_max_left 0 _
  have hc180 : ∀ x : ℚ, clampAngle x ≤ 180 := fun x =>
    max_le (by norm_num) (min_le_left 180 x)
  have hcmono : clampAngle a ≤ clampAngle b :=
    max_le_max le_rfl (min_le_min le_rfl hab)
  have hpb : ∀ x : ℚ, 500 ≤ pulse_us x ∧ pulse_us x ≤ 2500 := by
    intro x
    unfold pulse_us SERVO_MIN_US SERVO_MAX_US
    constructor <;> nlinarith [hc0 x, hc180 x]
  have hpmono : pulse_us a ≤ pulse_us b := by
    unfold pulse_us SERVO_MIN_US SERVO_MAX_US
    nlinarith [hcmono]
  have hq : ∀ x : ℚ, 0 ≤ pulse_us x / PWM_PERIOD_US * 65535 := by
    intro x
    unfold PWM_PERIOD_US
    nlinarith [(hpb x).1]
  have hpy : ∀ x : ℚ, duty_cycle x = ⌊pulse_us x / PWM_PERIOD_US * 65535⌋ := by
    intro x
    unfold duty_cycle pyInt
    rw [if_pos (hq x)]
  refine ⟨⟨hc0 a, hc180 a⟩, hpb a, ⟨?_, ?_⟩, ?_, ?_, ?_⟩
  · rw [hpy a, Int.le_floor]
    unfold PWM_PERIOD_US
    push_cast
    nlinarith [(hpb a).1]
  · rw [hpy a]
    have hlt : ⌊pulse_us a / PWM_PERIOD_US * 65535⌋ < 8192 := by
      rw [Int.floor_lt]
      unfold PWM_PERIOD_US
      push_cast
      nlinarith [(hpb a).2]
    omega
  · norm_num [duty_cycle, pulse_us, clampAngle, pyInt, SERVO_MIN_US, SERVO_MAX_US,
      PWM_PERIOD_US]
  · norm_num [duty_cycle, pulse_us, clampAngle, pyInt, SERVO_MIN_US, SERVO_MAX_US,
      PWM_PERIOD_US]
  · rw [hpy a, hpy b]
    apply Int.floor_le_floor
    unfold PWM_PERIOD_US
    nlinarith [hpmono]

theorem C9_duty_cycle_bounds_monotone_witness :
    (1638 ≤ duty_cycle 37 ∧ duty_cycle 37 ≤ 8191) ∧ duty_cycle 37 ≤ duty_cycle 245 :=
  ⟨(C9_duty_cycle_bounds_monotone 37 245 (by norm_num)).2.2.1,
   (C9_duty_cycle_bounds_monotone 37 245 (by norm_num)).2.2.2.2.2⟩

end Servo

namespace Workers

/-- C5: each worker classifies failures into quota / bad-credentials /
generic error strings and the coordinator leaves the mode state unchanged
with no retry, but the claim that the coordinator renders every worker's
error inline fails for the quiz worker: `on_start_quiz_clicked` connects no
slot to `error_occurred`, so a 429 quota failure during quiz generation is
classified and emitted yet never rendered — the quiz setup stays on
"Generating Questions... Please wait." with the start button disabled.  The
AI worker's classified error, by contrast, is rendered inline by
`update_text_area` with the mode state untouched. -/
theorem C5_quiz_error_never_rendered :
    quizErrorMessage "429 RESOURCE_EXHAUSTED: quota exceeded" =
      "Error: Gemini Quota Exceeded." ∧
    QuizWorker_run (Except.error "429 RESOURCE_EXHAUSTED: quota exceeded") =
      QuizSignal.errorOccurred "Error: Gemini Quota Exceeded." ∧
    dispatchQuizSignal (on_start_quiz_clicked_ui initUi)
        (QuizWorker_run (Except.error "429 RESOURCE_EXHAUSTED: quota exceeded")) =
      on_start_quiz_clicked_ui initUi ∧
    (on_start_quiz_clicked_ui initUi).quiz_loading_label =
      "Generating Questions... Please wait." ∧
    (on_start_quiz_clicked_ui initUi).start_quiz_btn_enabled = false ∧
    aiErrorMessage "429 RESOURCE_EXHAUSTED: quota exceeded" =
      "Error: Gemini API Quota Exceeded. Try again later." ∧
    (update_text_area initUi
        (aiErrorMessage "429 RESOURCE_EXHAUSTED: quota exceeded")).result_area =
      ["Error: Gemini API Quota Exceeded. Try again later."] ∧
    (update_text_area initUi
        (aiErrorMessage "429 RESOURCE_EXHAUSTED: quota exceeded")).is_learning_mode =
      initUi.is_learning_mode ∧
    (update_text_area initUi
        (aiErrorMessage "429 RESOURCE_EXHAUSTED: quota exceeded")).is_quiz_mode =
      initUi.is_quiz_mode ∧
    (update_text_area initUi
        (aiErrorMessage "429 RESOURCE_EXHAUSTED: quota exceeded")).quiz_data =
      initUi.quiz_data ∧
    (update_text_area initUi
        (aiErrorMessage
          "429 RESOURCE_EXHAUSTED: quota exceeded")).current_question_index =
      initUi.current_question_index ∧
    voiceErrorMessage "401 API key invalid" = "Error: Invalid ElevenLabs API Key." := by
  decide

end Workers

namespace Requests

/-- C7: every valid start-learning click issues a fresh request built purely
from the current form inputs (topic, language, name, grade, word limit), and
every start-quiz click issues a fresh request built purely from the stored
topic and the current grade, language and question count — each appended to
the issued list regardless of any identical previous request (no caching or
deduplication). -/
theorem C7_fresh_request_per_click (st : ReqState) (inp : FormInputs)
    (hname : inp.name.isEmpty = false) (hgrade : inp.grade.isEmpty = false)
    (hsubject : inp.subject.isEmpty = false)
    (hlanguage : inp.language.isEmpty = false)
    (htopic : inp.topic.isEmpty = false) :
    (on_start_clicked st inp).issued = st.issued ++
      [GET_LEARNING_PROMPT inp.topic inp.language inp.name inp.grade inp.word_limit] ∧
    ∀ (grade language : String) (num_questions : Nat),
      (on_start_quiz_clicked st grade language num_questions).issued = st.issued ++
        [GET_QUIZ_PROMPT st.current_topic grade language num_questions] := by
  constructor
  · unfold on_start_clicked
    rw [if_neg (by simp [hname, hgrade, hsubject, hlanguage, htopic])]
  · intro g l n
    rfl

theorem C7_fresh_request_per_click_witness :
    (on_start_clicked ⟨"Math", "Sci", ["old request"]⟩
        ⟨"Ada", "Grade 5", "Science", "English", "Water", "100 words"⟩).issued =
      ["old request"] ++
        [GET_LEARNING_PROMPT "Water" "English" "Ada" "Grade 5" "100 words"] :=
  (C7_fresh_request_per_click ⟨"Math", "Sci", ["old request"]⟩
    ⟨"Ada", "Grade 5", "Science", "English", "Water", "100 words"⟩
    rfl rfl rfl rfl rfl).1

end Requests

namespace Sel

/-- C8: random phrase and sound selection is reproducible — the selection
log is a pure function of the generator, its seed state, the fixed phrase
lists with the sounds directory listing, and the sequence of selection
points; two runs agreeing on these select the same phrases and sounds at
every selection point. -/
theorem C8_selection_reproducible (rb : Nat → Nat → Nat × Nat)
    (seed1 seed2 : Nat) (dir1 dir2 : List (String × Nat))
    (evs1 evs2 : List SelEv) (hseed : seed1 = seed2) (hdir : dir1 = dir2)
    (hevs : evs1 = evs2) :
    selectionLog rb seed1 dir1 evs1 = selectionLog rb seed2 dir2 evs2 := by
  subst hseed
  subst hdir
  subst hevs
  rfl

theorem C8_selection_reproducible_witness :
    selectionLog (fun g n => (g % max n 1, g + 1)) 7
        [("win_exp_1.mp3", 200), ("lose_exp_1.mp3", 200)]
        [SelEv.openingSel, SelEv.answerSel true, SelEv.closingSel] =
      selectionLog (fun g n => (g % max n 1, g + 1)) 7
        [("win_exp_1.mp3", 200), ("lose_exp_1.mp3", 200)]
        [SelEv.openingSel, SelEv.answerSel true, SelEv.closingSel] :=
  C8_selection_reproducible (fun g n => (g % max n 1, g + 1)) 7 7
    [("win_exp_1.mp3", 200), ("lose_exp_1.mp3", 200)]
    [("win_exp_1.mp3", 200), ("lose_exp_1.mp3", 200)]
    [SelEv.openingSel, SelEv.answerSel true, SelEv.closingSel]
    [SelEv.openingSel, SelEv.answerSel true, SelEv.closingSel] rfl rfl rfl

end Sel
